import Mathlib

/-!
Shallow embedding of the retrieval-fusion and case-orchestration pipeline of
the RAG4Test repository, together with proofs of the specification claims.

The embedding covers:
* `pipeline.py` — distance-to-similarity conversion, adaptive softmax-style
  tier weighting, weighted fusion, stable descending sort, truncation;
* `Agent/generated_memory.py` — the semantic cache (`search_reports`);
* `RAG_pipeline.py` — the local-evaluation loop, progress record and the
  reuse counter record with its append-only history;
* `Agent/react_agent.py` — the `react_reasoning` action classifier.

Python floats are idealised as real numbers (for the code paths that use
`math.exp`) or as rationals (for the purely arithmetical cache code), and
Python's stable `sorted` is modelled by `List.insertionSort` with a total
preorder, which computes the same list as any stable sort.
-/

/- ===================== pipeline.py ===================== -/

/-- `pipeline.py` line 22: `THRESHOLD_LOW = 0.75`.  Declared in the source
but never read by any code in the repository. -/
def THRESHOLD_LOW : ℝ := 0.75

/-- `pipeline.py` line 23: `BETA_BASE = 2.0`. -/
def BETA_BASE : ℝ := 2

/-- `pipeline.py` line 21: `FINAL_TOP_N = 5`. -/
def FINAL_TOP_N : ℕ := 5

/-- `pipeline.py` lines 37-39:
`def compute_cosine_similarity(distances): return [1 - d for d in distances]`.
Note the absence of any clamping. -/
def compute_cosine_similarity (distances : List ℝ) : List ℝ :=
  distances.map (fun d => 1 - d)

/-- `pipeline.py` lines 41-48: `adaptive_weights(s1, s2, alpha1=0.5,
alpha2=0.5, beta_base=2.0)`; the main loop calls it with the default alphas
and `beta_base=BETA_BASE`.  Returns `(w1/z, w2/z, beta)`. -/
noncomputable def adaptive_weights (s1 s2 alpha1 alpha2 beta_base : ℝ) : ℝ × ℝ × ℝ :=
  let diff := |s1 - s2|
  let beta := beta_base * diff * 5
  let w1 := alpha1 * Real.exp (beta * s1)
  let w2 := alpha2 * Real.exp (beta * s2)
  let z := w1 + w2
  (w1 / z, w2 / z, beta)

/-- C1: for every pair of peak tier similarities `(s1, s2)` the adaptive
weights (at the call-site parameters `alpha1 = alpha2 = 0.5`,
`beta_base = BETA_BASE`) satisfy `w1 + w2 = 1`, `w1 ≥ w2 ↔ s1 ≥ s2`, and at
`s1 = s2` (where `diff = 0` forces `beta = 0`) both weights are `0.5`. -/
theorem adaptive_weights_normalised_monotone (s1 s2 : ℝ) :
    (adaptive_weights s1 s2 0.5 0.5 BETA_BASE).1 +
        (adaptive_weights s1 s2 0.5 0.5 BETA_BASE).2.1 = 1 ∧
    ((adaptive_weights s1 s2 0.5 0.5 BETA_BASE).2.1 ≤
        (adaptive_weights s1 s2 0.5 0.5 BETA_BASE).1 ↔ s2 ≤ s1) ∧
    (adaptive_weights s1 s1 0.5 0.5 BETA_BASE).1 = 0.5 ∧
    (adaptive_weights s1 s1 0.5 0.5 BETA_BASE).2.1 = 0.5 ∧
    (adaptive_weights s1 s1 0.5 0.5 BETA_BASE).2.2 = 0 := by
  simp only [adaptive_weights, BETA_BASE]
  set b : ℝ := 2 * |s1 - s2| * 5 with hb
  have hbnn : 0 ≤ b := by positivity
  have hE1 : (0:ℝ) < Real.exp (b * s1) := Real.exp_pos _
  have hE2 : (0:ℝ) < Real.exp (b * s2) := Real.exp_pos _
  have hz : (0:ℝ) < 0.5 * Real.exp (b * s1) + 0.5 * Real.exp (b * s2) := by positivity
  refine ⟨?_, ?_, ?_, ?_, ?_⟩
  · rw [div_add_div_same, div_self hz.ne']
  · rw [div_le_div_iff_of_pos_right hz]
    constructor
    · intro h
      by_contra hlt
      push_neg at hlt
      have hbpos : 0 < b := by
        rw [hb]
        have : 0 < |s1 - s2| := abs_pos.mpr (sub_ne_zero.mpr hlt.ne)
        nlinarith
      have : b * s1 < b * s2 := by exact (mul_lt_mul_left hbpos).mpr hlt
      have hle : Real.exp (b * s1) < Real.exp (b * s2) := Real.exp_lt_exp.mpr this
      nlinarith
    · intro h
      have : b * s2 ≤ b * s1 := mul_le_mul_of_nonneg_left h hbnn
      have := Real.exp_le_exp.mpr this
      nlinarith
  · simp [sub_self, abs_zero]
    norm_num
  · simp [sub_self, abs_zero]
    norm_num
  · simp [sub_self, abs_zero]

/- ===================== similarity conversion (C2) ===================== -/

/-- `Agent/generated_memory.py` line 56:
`similarity = 1 - min(distance, 1)` — the semantic cache's distance-to-
similarity conversion, which (unlike `compute_cosine_similarity`) clamps. -/
def cache_similarity (d : ℚ) : ℚ := 1 - min d 1

/-- C2 counterexample: the claim says a derived tier similarity is clamped to
`0` for distances `d > 1` and is never negative, but
`compute_cosine_similarity` maps the tier distance `2` to `-1 < 0`. -/
theorem tier_similarity_not_clamped :
    compute_cosine_similarity [(2:ℝ)] = [-1] ∧ ¬ (0:ℝ) ≤ -1 := by
  constructor
  · simp [compute_cosine_similarity]
    norm_num
  · norm_num

/-- C2 amended: a derived tier similarity equals `1 − d` with no clamping
(so it is negative for `d > 1`); only the semantic cache's derived
similarity `1 − min(d, 1)` agrees with `1 − d` on `[0, 1]`, is clamped to
`0` for `d ≥ 1`, and lies in `[0, 1]` whenever `d ≥ 0`. -/
theorem similarity_conversion_amended (d : ℝ) (q : ℚ) :
    compute_cosine_similarity [d] = [1 - d] ∧
    (0 ≤ q → q ≤ 1 → cache_similarity q = 1 - q) ∧
    (1 ≤ q → cache_similarity q = 0) ∧
    (0 ≤ q → 0 ≤ cache_similarity q ∧ cache_similarity q ≤ 1) := by
  refine ⟨by simp [compute_cosine_similarity], ?_, ?_, ?_⟩
  · intro _ h1
    simp [cache_similarity, min_eq_left h1]
  · intro h1
    simp [cache_similarity, min_eq_right h1]
  · intro h0
    unfold cache_similarity
    constructor
    · have : min q 1 ≤ 1 := min_le_right _ _
      linarith
    · have : 0 ≤ min q 1 := le_min h0 zero_le_one
      linarith

/-- C2 witness: the amended statement applied at tier distance `2` and cache
distance `1/2`, with the hypotheses discharged concretely. -/
theorem similarity_conversion_amended_witness :
    (0 ≤ (1/2 : ℚ) ∧ (1/2 : ℚ) ≤ 1) ∧
    cache_similarity (1/2) = 1 - (1/2 : ℚ) := by
  refine ⟨⟨by norm_num, by norm_num⟩, ?_⟩
  exact (similarity_conversion_amended 2 (1/2)).2.1 (by norm_num) (by norm_num)

/- ===================== escalation flag (C3) ===================== -/

/-- Modelled from the spec: `pipeline.py` line 22 declares
`THRESHOLD_LOW = 0.75` but no code in the repository reads it or computes an
escalation flag; the spec (§4.2 step 6) defines the flag as
`s1 < threshold_low AND s2 < threshold_low` over the two peak tier
similarities. -/
noncomputable def escalation_flag (s1 s2 : ℝ) : Bool :=
  decide (s1 < THRESHOLD_LOW) && decide (s2 < THRESHOLD_LOW)

/-- C3: the escalation flag is true iff both peak similarities are strictly
below `THRESHOLD_LOW`; in particular it is false as soon as either peak
similarity is exactly the threshold (the comparison is strict). -/
theorem escalation_flag_iff (s1 s2 : ℝ) :
    (escalation_flag s1 s2 = true ↔ s1 < THRESHOLD_LOW ∧ s2 < THRESHOLD_LOW) ∧
    (s1 = THRESHOLD_LOW → escalation_flag s1 s2 = false) ∧
    (s2 = THRESHOLD_LOW → escalation_flag s1 s2 = false) := by
  refine ⟨?_, ?_, ?_⟩
  · simp [escalation_flag]
  · intro h
    simp [escalation_flag, h]
  · intro h
    simp [escalation_flag, h]

/-- C3 witness: at `s1 = THRESHOLD_LOW` (a boundary case) the flag is false,
by the theorem applied at `(THRESHOLD_LOW, 0.3)`. -/
theorem escalation_flag_iff_witness :
    escalation_flag THRESHOLD_LOW 0.3 = false :=
  (escalation_flag_iff THRESHOLD_LOW 0.3).2.1 rfl

/- ===================== fusion ranking (C4, C5) ===================== -/

/-- One fused evidence candidate of `pipeline.py` lines 74-78: a dict
`{"text": doc, "score": wi * sim}`. -/
structure Cand where
  text : String
  score : ℝ

/-- The descending-score ordering used by `pipeline.py` line 80
(`sorted(..., key=lambda x: x["score"], reverse=True)`). -/
def candLE (a b : Cand) : Prop := b.score ≤ a.score

noncomputable instance : DecidableRel candLE := fun a b => Real.decidableLE b.score a.score

instance : IsTotal Cand candLE := ⟨fun a b => le_total b.score a.score⟩

instance : IsTrans Cand candLE := ⟨fun _ _ _ h1 h2 => le_trans h2 h1⟩

/-- Python `max(sims) if sims else 0.0` (`pipeline.py` lines 62 and 68). -/
def maxOr0 : List ℝ → ℝ
  | [] => 0
  | x :: xs => xs.foldl max x

/-- `pipeline.py` lines 58-78: the pre-sort fused candidate list — tier-1
candidates in retrieval order, then tier-2 candidates in retrieval order,
each tagged with `wi * sim` for the adaptive weights of the two peak
similarities. -/
noncomputable def fusionCombined (docs1 : List String) (dists1 : List ℝ)
    (docs2 : List String) (dists2 : List ℝ) : List Cand :=
  let sims1 := compute_cosine_similarity dists1
  let sims2 := compute_cosine_similarity dists2
  let w := adaptive_weights (maxOr0 sims1) (maxOr0 sims2) 0.5 0.5 BETA_BASE
  ((docs1.zip sims1).map fun p => ⟨p.1, w.1 * p.2⟩) ++
    ((docs2.zip sims2).map fun p => ⟨p.1, w.2.1 * p.2⟩)

/-- `pipeline.py` line 80: Python's `sorted` is a stable sort, so the sorted
list is the one computed by `insertionSort` under the total preorder
`candLE`. -/
noncomputable def fusionRanked (docs1 : List String) (dists1 : List ℝ)
    (docs2 : List String) (dists2 : List ℝ) : List Cand :=
  List.insertionSort candLE (fusionCombined docs1 dists1 docs2 dists2)

/-- Python's `str.strip()` on the underlying character list: drop leading
and trailing whitespace. -/
def stripChars (l : List Char) : List Char :=
  ((l.dropWhile Char.isWhitespace).reverse.dropWhile Char.isWhitespace).reverse

/-- Python's `str.strip()`. -/
def pyStrip (s : String) : String := String.mk (stripChars s.data)

/-- `pipeline.py` line 81:
`[x["text"].strip() for x in combined[:FINAL_TOP_N] if x["text"].strip()]`
(a stripped text is truthy exactly when it is non-empty). -/
noncomputable def retrieved_list (docs1 : List String) (dists1 : List ℝ)
    (docs2 : List String) (dists2 : List ℝ) : List String :=
  (((fusionRanked docs1 dists1 docs2 dists2).take FINAL_TOP_N).map
      (fun c => pyStrip c.text)).filter (fun t => !t.isEmpty)

/-- C4: the fused ranking is a permutation of the combined tier candidates,
sorted in descending fused score, and stable: any two candidates that appear
in tier-1-then-tier-2 order with equal fused score (in particular, equal-score
candidates of the same tier in their original rank order) keep that relative
order after sorting.  Fusion is a pure function of the tier outputs, so
re-running it on identical tier outputs yields an identical ranked list. -/
theorem fusionRanked_sorted_stable (docs1 : List String) (dists1 : List ℝ)
    (docs2 : List String) (dists2 : List ℝ) :
    List.Sorted candLE (fusionRanked docs1 dists1 docs2 dists2) ∧
    (fusionRanked docs1 dists1 docs2 dists2).Perm
      (fusionCombined docs1 dists1 docs2 dists2) ∧
    (∀ a b : Cand, a.score = b.score →
      List.Sublist [a, b] (fusionCombined docs1 dists1 docs2 dists2) →
      List.Sublist [a, b] (fusionRanked docs1 dists1 docs2 dists2)) := by
  refine ⟨List.sorted_insertionSort candLE _, List.perm_insertionSort candLE _, ?_⟩
  intro a b hscore hsub
  exact List.pair_sublist_insertionSort (le_of_eq hscore.symm) hsub

/-- Concrete evaluation of the combined list when both tiers return the same
passage `"p"` at distance `0.1`: both peak similarities are `0.9`, so
`beta = 0` and both weights are `0.5`, giving two candidates of score
`0.45`. -/
lemma fusionCombined_pp :
    fusionCombined ["p"] [0.1] ["p"] [0.1] = [Cand.mk "p" 0.45, Cand.mk "p" 0.45] := by
  norm_num [fusionCombined, compute_cosine_similarity, maxOr0, adaptive_weights, Real.exp_zero]

/-- The stable sort keeps the two equal-score candidates in place. -/
lemma insertionSort_pp :
    List.insertionSort candLE [Cand.mk "p" 0.45, Cand.mk "p" 0.45] =
      [Cand.mk "p" 0.45, Cand.mk "p" 0.45] := by
  simp [List.insertionSort, List.orderedInsert, candLE]

/-- Concrete evaluation of `retrieved_list` on the duplicated passage. -/
lemma retrieved_list_pp :
    retrieved_list ["p"] [0.1] ["p"] [0.1] = ["p", "p"] := by
  unfold retrieved_list fusionRanked
  rw [fusionCombined_pp, insertionSort_pp]
  decide

/-- C4 witness: the stability clause of the theorem applied to the concrete
equal-score candidate pair produced by tiers `["p"]`/`["p"]` at distance
`0.1` each. -/
theorem fusionRanked_sorted_stable_witness :
    List.Sublist [Cand.mk "p" 0.45, Cand.mk "p" 0.45] (fusionRanked ["p"] [0.1] ["p"] [0.1]) :=
  (fusionRanked_sorted_stable ["p"] [0.1] ["p"] [0.1]).2.2
    (Cand.mk "p" 0.45) (Cand.mk "p" 0.45) rfl (by rw [fusionCombined_pp])

/-- C5 counterexample: when both tiers return the same passage `"p"` (at
equal distance `0.1`), the final truncated list is `["p", "p"]` — the same
passage text appears twice, so the output is not deduplicated by passage
text. -/
theorem retrieved_list_not_deduplicated :
    retrieved_list ["p"] [0.1] ["p"] [0.1] = ["p", "p"] ∧
    ¬ (retrieved_list ["p"] [0.1] ["p"] [0.1]).Nodup := by
  refine ⟨retrieved_list_pp, ?_⟩
  rw [retrieved_list_pp]
  decide

/-- C5 amended: the final list is not deduplicated; it consists of the
stripped texts of the top `FINAL_TOP_N` fused candidates with
empty-after-strip texts removed (so it has at most `FINAL_TOP_N` entries,
none of them empty, each the stripped text of a ranked candidate), and the
same passage text may occur more than once when both tiers return it. -/
theorem retrieved_list_truncation_spec (docs1 : List String) (dists1 : List ℝ)
    (docs2 : List String) (dists2 : List ℝ) :
    (retrieved_list docs1 dists1 docs2 dists2).length ≤ FINAL_TOP_N ∧
    (∀ t ∈ retrieved_list docs1 dists1 docs2 dists2,
      t.isEmpty = false ∧
      ∃ c ∈ fusionRanked docs1 dists1 docs2 dists2, t = pyStrip c.text) := by
  constructor
  · refine le_trans (List.length_filter_le _ _) ?_
    rw [List.length_map, List.length_take]
    exact min_le_left _ _
  · intro t ht
    unfold retrieved_list at ht
    obtain ⟨hmem, hpred⟩ := List.mem_filter.mp ht
    obtain ⟨c, hc, hct⟩ := List.mem_map.mp hmem
    refine ⟨by simpa using hpred, c, List.take_subset _ _ hc, hct.symm⟩

/-- C5 amended-theorem witness: applied to the concrete duplicated-passage
input, with the membership hypothesis discharged on `"p"`. -/
theorem retrieved_list_truncation_spec_witness :
    ("p" ∈ retrieved_list ["p"] [0.1] ["p"] [0.1]) ∧
    (("p" : String).isEmpty = false ∧
      ∃ c ∈ fusionRanked ["p"] [0.1] ["p"] [0.1], "p" = pyStrip c.text) := by
  have hmem : "p" ∈ retrieved_list ["p"] [0.1] ["p"] [0.1] := by
    rw [retrieved_list_pp]; decide
  exact ⟨hmem, (retrieved_list_truncation_spec ["p"] [0.1] ["p"] [0.1]).2 "p" hmem⟩

/- ============== Agent/generated_memory.py: search_reports (C7) ============== -/

/-- A stored cache document: the feedback text (`page_content`) and its
metadata `bug_report`. -/
structure CacheDoc where
  page_content : String
  bug_report : String
deriving DecidableEq

/-- The structured verdict of the cache-verification oracle:
`{"reuse": bool, "matched_indices": [...], "rationale": str}`. -/
structure CacheVerdict where
  reuse : Bool
  matched_indices : List ℤ
  rationale : String

/-- The value returned on reuse by `search_reports`. -/
structure ReuseDecision where
  report : CacheDoc
  similarity : ℚ
  rationale : String

/-- `Agent/generated_memory.py` lines 54-59: convert each retrieved
`(doc, distance)` pair to `(doc, 1 - min(distance, 1))` and keep those with
similarity `≥ similarity_threshold`. -/
def filteredOf (threshold : ℚ) (results : List (CacheDoc × ℚ)) : List (CacheDoc × ℚ) :=
  (results.map (fun p => (p.1, cache_similarity p.2))).filter
    (fun p => decide (threshold ≤ p.2))

/-- `Agent/generated_memory.py` lines 41-125, `search_reports`.  The effectful
collaborators are parameters: `results` is the list of `(doc, distance)`
pairs returned by the vector store, `response` is the raw verification-LLM
output and `parse` is the JSON parser (`none` = `json.loads` raised, which
the source replaces by `{"reuse": False, "matched_indices": [],
"rationale": response}`). -/
def search_reports (threshold : ℚ) (results : List (CacheDoc × ℚ))
    (verify_llm : Bool) (response : String)
    (parse : String → Option CacheVerdict) : Option ReuseDecision :=
  if results.isEmpty then none
  else
    match filteredOf threshold results with
    | [] => none
    | top :: rest =>
      if !verify_llm then some ⟨top.1, top.2, "Direct similarity reuse (no LLM check)"⟩
      else
        let result := (parse response).getD ⟨false, [], response⟩
        if !result.reuse then none
        else
          let filtered := top :: rest
          let matched := result.matched_indices.filterMap (fun idx =>
            if 0 ≤ idx - 1 ∧ idx - 1 < (filtered.length : ℤ) then
              (filtered.get? (idx - 1).toNat).map Prod.fst
            else none)
          match matched with
          | [] => none
          | m :: _ => some ⟨m, top.2, result.rationale⟩

/-- C7: the semantic cache returns `none` whenever no retrieved entry reaches
the similarity threshold, and — with verification enabled — whenever the
oracle response is unparseable, carries `reuse = false`, or contains no index
that validates against the qualifying candidates. -/
theorem search_reports_no_reuse_safety (threshold : ℚ)
    (results : List (CacheDoc × ℚ)) (response : String)
    (parse : String → Option CacheVerdict) :
    ((∀ p ∈ results, cache_similarity p.2 < threshold) →
      ∀ verify_llm, search_reports threshold results verify_llm response parse = none) ∧
    (parse response = none →
      search_reports threshold results true response parse = none) ∧
    (∀ v, parse response = some v → v.reuse = false →
      search_reports threshold results true response parse = none) ∧
    (∀ v, parse response = some v →
      (∀ idx ∈ v.matched_indices,
        ¬(0 ≤ idx - 1 ∧ idx - 1 < ((filteredOf threshold results).length : ℤ))) →
      search_reports threshold results true response parse = none) := by
  refine ⟨?_, ?_, ?_, ?_⟩
  · intro hlow verify_llm
    have hnil : filteredOf threshold results = [] := by
      refine List.filter_eq_nil_iff.mpr ?_
      intro p hp
      obtain ⟨q, hq, rfl⟩ := List.mem_map.mp hp
      simpa using not_le.mpr (hlow q hq)
    unfold search_reports
    rw [hnil]
    by_cases h : results.isEmpty <;> simp [h]
  · intro hnone
    unfold search_reports
    rcases hfil : filteredOf threshold results with _ | ⟨top, rest⟩ <;>
      by_cases h : results.isEmpty <;> simp [h, hnone]
  · intro v hv hfalse
    unfold search_reports
    rcases hfil : filteredOf threshold results with _ | ⟨top, rest⟩ <;>
      by_cases h : results.isEmpty <;> simp [h, hv, hfalse]
  · intro v hv hidx
    unfold search_reports
    rcases hfil : filteredOf threshold results with _ | ⟨top, rest⟩
    · by_cases h : results.isEmpty <;> simp [h]
    · rw [hfil] at hidx
      have hmatched : v.matched_indices.filterMap (fun idx =>
          if 0 ≤ idx - 1 ∧ idx - 1 < ((top :: rest).length : ℤ) then
            ((top :: rest).get? (idx - 1).toNat).map Prod.fst
          else none) = [] :=
        List.filterMap_eq_nil_iff.mpr (fun idx hm => if_neg (hidx idx hm))
      by_cases h : results.isEmpty
      · simp [h]
      · simp only [h, Bool.false_eq_true, if_false, hv, Option.getD_some]
        by_cases hr : v.reuse
        · simp only [hr, Bool.not_true, Bool.false_eq_true, if_false, hmatched]
        · simp [hr]

/-- C7 witness: a single retrieved entry at distance `1/2` (similarity `1/2`)
against threshold `4/5` — below threshold, so no reuse even with
verification enabled and an unparseable oracle response. -/
theorem search_reports_no_reuse_safety_witness :
    (∀ p ∈ [(CacheDoc.mk "f" "r", (1/2 : ℚ))], cache_similarity p.2 < 4/5) ∧
    search_reports (4/5) [(CacheDoc.mk "f" "r", 1/2)] true "resp"
      (fun _ => none) = none := by
  have hlow : ∀ p ∈ [(CacheDoc.mk "f" "r", (1/2 : ℚ))], cache_similarity p.2 < 4/5 := by
    intro p hp
    simp only [List.mem_singleton] at hp
    subst hp
    norm_num [cache_similarity]
  exact ⟨hlow, (search_reports_no_reuse_safety (4/5) [(CacheDoc.mk "f" "r", 1/2)]
    "resp" (fun _ => none)).1 hlow true⟩

/- ============ RAG_pipeline.py: local evaluation loop (C6) ============ -/

/-- The judge oracle's verdict (`Agent/judgement_agent.py`):
`{relevant: bool, sufficient: bool, reason: str}`. -/
structure JudgeVerdict where
  relevant : Bool
  sufficient : Bool
  reason : String

/-- `Agent/memory_state.py`: the per-case working memory (`metadata`
modelled as string pairs; it is never touched by the orchestrator). -/
structure MemoryState where
  feedback : String
  collected : List String
  decision : Option String
  bug_report : Option String
  metadata : List (String × String)

/-- The literal decision string written on the local-sufficient path
(`RAG_pipeline.py` line 131). -/
def localSufficientMsg : String :=
  "Action: Generate (sufficient evidence found locally, reasoning skipped)"

/-- `RAG_pipeline.py` lines 121-148 (Step 4): iterate the retrieved evidence
in rank order; on the first candidate judged relevant and sufficient,
synthesize the report from `feedback + "\n\n" + candidate`, record it and
stop; append a relevant-but-insufficient candidate to `collected`; drop an
irrelevant candidate.  The judge and generator oracles are parameters
(`judge feedback doc` models `evaluate_candidate`, `gen` models
`generate_bug_report`). -/
def local_eval (judge : String → String → JudgeVerdict) (gen : String → String) :
    MemoryState → List String → MemoryState
  | state, [] => state
  | state, doc :: rest =>
    let r := judge state.feedback doc
    if r.relevant && r.sufficient then
      { state with
        bug_report := some (gen (state.feedback ++ "\n\n" ++ doc)),
        decision := some localSufficientMsg }
    else if r.relevant then
      local_eval judge gen { state with collected := state.collected ++ [doc] } rest
    else
      local_eval judge gen state rest

/-- Helper: when no candidate is judged both relevant and sufficient, the
loop only appends the relevant candidates, in order, to `collected`. -/
lemma local_eval_no_sufficient (judge : String → String → JudgeVerdict)
    (gen : String → String) (st : MemoryState) (docs : List String)
    (h : ∀ d ∈ docs, ¬((judge st.feedback d).relevant = true ∧
        (judge st.feedback d).sufficient = true)) :
    local_eval judge gen st docs =
      { st with collected :=
          st.collected ++ docs.filter (fun d => (judge st.feedback d).relevant) } := by
  induction docs generalizing st with
  | nil => simp [local_eval]
  | cons d rest ih =>
    have hd := h d (List.mem_cons_self d rest)
    have hrest : ∀ x ∈ rest, ¬((judge st.feedback x).relevant = true ∧
        (judge st.feedback x).sufficient = true) :=
      fun x hx => h x (List.mem_cons_of_mem d hx)
    by_cases hrel : (judge st.feedback d).relevant = true
    · have hsuf : (judge st.feedback d).sufficient = false := by
        rcases Bool.eq_false_or_eq_true (judge st.feedback d).sufficient with hs | hs
        · exact absurd ⟨hrel, hs⟩ hd
        · exact hs
      rw [local_eval]
      simp only [hrel, hsuf, Bool.and_false, Bool.false_eq_true, if_false, if_true]
      rw [ih _ (by simpa using hrest)]
      simp [hrel, List.append_assoc]
    · rw [local_eval]
      simp only [Bool.not_eq_true] at hrel
      simp only [hrel, Bool.false_and, Bool.false_eq_true, if_false]
      rw [ih _ (by simpa using hrest)]
      simp [hrel]

/-- Helper: if every candidate before `d` fails the relevant-and-sufficient
test and `d` passes it, the loop synthesizes the report from
`feedback + "\n\n" + d`, records the fixed decision string, has collected
exactly the relevant candidates preceding `d`, and stops (the result does
not depend on the candidates after `d`). -/
lemma local_eval_found (judge : String → String → JudgeVerdict)
    (gen : String → String) (st : MemoryState) (pre : List String) (d : String)
    (post : List String)
    (hpre : ∀ x ∈ pre, ¬((judge st.feedback x).relevant = true ∧
        (judge st.feedback x).sufficient = true))
    (hrel : (judge st.feedback d).relevant = true)
    (hsuf : (judge st.feedback d).sufficient = true) :
    local_eval judge gen st (pre ++ d :: post) =
      { st with
        collected := st.collected ++ pre.filter (fun x => (judge st.feedback x).relevant),
        decision := some localSufficientMsg,
        bug_report := some (gen (st.feedback ++ "\n\n" ++ d)) } := by
  induction pre generalizing st with
  | nil =>
    simp only [List.nil_append]
    rw [local_eval]
    simp [hrel, hsuf]
  | cons x pre ih =>
    have hx := hpre x (List.mem_cons_self x pre)
    have hrest : ∀ y ∈ pre, ¬((judge st.feedback y).relevant = true ∧
        (judge st.feedback y).sufficient = true) :=
      fun y hy => hpre y (List.mem_cons_of_mem x hy)
    by_cases hxrel : (judge st.feedback x).relevant = true
    · have hxsuf : (judge st.feedback x).sufficient = false := by
        rcases Bool.eq_false_or_eq_true (judge st.feedback x).sufficient with hs | hs
        · exact absurd ⟨hxrel, hs⟩ hx
        · exact hs
      rw [List.cons_append, local_eval]
      simp only [hxrel, hxsuf, Bool.and_false, Bool.false_eq_true, if_false, if_true]
      rw [ih _ (by simpa using hrest) (by simpa using hrel) (by simpa using hsuf)]
      simp [hxrel, List.append_assoc]
    · rw [List.cons_append, local_eval]
      simp only [Bool.not_eq_true] at hxrel
      simp only [hxrel, Bool.false_and, Bool.false_eq_true, if_false]
      rw [ih _ (by simpa using hrest) (by simpa using hrel) (by simpa using hsuf)]
      simp [hxrel]

/-- `RAG_pipeline.py` line 151: `if not state.bug_report:` — the
reasoning/search escalation (Step 5) runs when `bug_report` is falsy in
Python, i.e. when it is `None` or the empty string. -/
def escalates (st : MemoryState) : Bool :=
  match st.bug_report with
  | none => true
  | some r => r.isEmpty

/-- C6 amended: the local evaluation iterates the ranked evidence in order;
if no candidate is judged relevant-and-sufficient, it merely appends every
relevant candidate to `collected` in evaluation order (irrelevant candidates
are dropped); for the first candidate judged both relevant and sufficient,
the report is synthesized from the feedback plus that single candidate,
`collected` holds exactly the relevant candidates seen before it, the rest
of the list is ignored, and escalation is afterwards invoked exactly when
the synthesized report text is empty (Python truthiness of `bug_report`) —
in particular, never for a non-empty report. -/
theorem local_eval_first_sufficient (judge : String → String → JudgeVerdict)
    (gen : String → String) (st : MemoryState) (docs : List String) :
    ((∀ d ∈ docs, ¬((judge st.feedback d).relevant = true ∧
        (judge st.feedback d).sufficient = true)) →
      local_eval judge gen st docs =
        { st with collected :=
            st.collected ++ docs.filter (fun d => (judge st.feedback d).relevant) }) ∧
    (∀ pre d post, docs = pre ++ d :: post →
      (∀ x ∈ pre, ¬((judge st.feedback x).relevant = true ∧
          (judge st.feedback x).sufficient = true)) →
      (judge st.feedback d).relevant = true →
      (judge st.feedback d).sufficient = true →
      local_eval judge gen st docs =
        { st with
          collected := st.collected ++ pre.filter (fun x => (judge st.feedback x).relevant),
          decision := some localSufficientMsg,
          bug_report := some (gen (st.feedback ++ "\n\n" ++ d)) } ∧
      escalates (local_eval judge gen st docs) =
        (gen (st.feedback ++ "\n\n" ++ d)).isEmpty) := by
  constructor
  · exact local_eval_no_sufficient judge gen st docs
  · intro pre d post hdocs hpre hrel hsuf
    subst hdocs
    have h := local_eval_found judge gen st pre d post hpre hrel hsuf
    exact ⟨h, by rw [h]; rfl⟩

/-- A concrete judge oracle for the C6 witness. -/
def wJudge : String → String → JudgeVerdict := fun _ d =>
  if d = "good" then ⟨true, true, "ok"⟩
  else if d = "partial" then ⟨true, false, "partial only"⟩
  else ⟨false, false, "irrelevant"⟩

/-- A concrete generator oracle for the C6 witness. -/
def wGen : String → String := fun c => "REPORT: " ++ c

/-- C6 witness: on candidates `["junk", "partial", "good", "later"]` the
first relevant-and-sufficient candidate is `"good"`; the theorem applied
there shows the report is built from feedback plus `"good"`, `collected`
ends as `["partial"]`, and escalation is governed by the emptiness of the
(non-empty) generated report. -/
theorem local_eval_first_sufficient_witness :
    ((["junk", "partial", "good", "later"] : List String) =
      ["junk", "partial"] ++ "good" :: ["later"]) ∧
    (∀ x ∈ ["junk", "partial"],
      ¬((wJudge (MemoryState.mk "fb" [] none none []).feedback x).relevant = true ∧
        (wJudge (MemoryState.mk "fb" [] none none []).feedback x).sufficient = true)) ∧
    (local_eval wJudge wGen (MemoryState.mk "fb" [] none none [])
        ["junk", "partial", "good", "later"] =
      { MemoryState.mk "fb" [] none none [] with
        collected := (MemoryState.mk "fb" [] none none []).collected ++
          List.filter
            (fun x => (wJudge (MemoryState.mk "fb" [] none none []).feedback x).relevant)
            ["junk", "partial"],
        decision := some localSufficientMsg,
        bug_report := some (wGen ((MemoryState.mk "fb" [] none none []).feedback ++
          "\n\n" ++ "good")) } ∧
      escalates (local_eval wJudge wGen (MemoryState.mk "fb" [] none none [])
        ["junk", "partial", "good", "later"]) =
        (wGen ((MemoryState.mk "fb" [] none none []).feedback ++
          "\n\n" ++ "good")).isEmpty) := by
  refine ⟨rfl, by decide, ?_⟩
  exact (local_eval_first_sufficient wJudge wGen (MemoryState.mk "fb" [] none none [])
    ["junk", "partial", "good", "later"]).2 ["junk", "partial"] "good" ["later"]
    rfl (by decide) (by decide) (by decide)

/-- A generator oracle that returns an empty report, for the C6
counterexample. -/
def emptyGen : String → String := fun _ => ""

/-- C6 counterexample: the original claim says that once the first
relevant-and-sufficient candidate synthesizes the report, no escalation is
invoked; but when the generator oracle returns the empty string the source
stores `bug_report = ""` and the Step-5 guard `if not state.bug_report:`
(`RAG_pipeline.py` line 151) is truthy, so the program escalates anyway. -/
theorem local_eval_escalates_on_empty_report :
    (local_eval wJudge emptyGen (MemoryState.mk "fb" [] none none [])
      ["good"]).bug_report = some "" ∧
    escalates (local_eval wJudge emptyGen (MemoryState.mk "fb" [] none none [])
      ["good"]) = true := by
  constructor <;> decide

/- ============ RAG_pipeline.py: reuse counters (C8) ============ -/

/-- One timestamped history snapshot written by `save_counters`
(`RAG_pipeline.py` lines 51-56). -/
structure CounterSnapshot where
  timestamp : String
  case_count : ℕ
  reuse_count : ℕ
  reuse_rate : ℚ

/-- The counter record `{case_count, reuse_count, history}` persisted in
`logs/reuse_counter.json`. -/
structure Counters where
  case_count : ℕ
  reuse_count : ℕ
  history : List CounterSnapshot

/-- `RAG_pipeline.py` lines 38-45, `load_counters`: a missing file means a
first run, starting from zero. -/
def load_counters (file : Option Counters) : Counters := file.getD ⟨0, 0, []⟩

/-- Python `round(x, 4)` idealised over `ℚ` (the float banker's rounding is
abstracted to Mathlib's `round`; the rate plays no role in the claims). -/
def round4 (q : ℚ) : ℚ := (round (q * 10000) : ℤ) / 10000

/-- `RAG_pipeline.py` lines 48-58, `save_counters`: append one timestamped
snapshot to `history` (never overwriting old entries) and write the file. -/
def save_counters (ts : String) (c : Counters) : Counters :=
  { c with history := c.history ++
      [⟨ts, c.case_count, c.reuse_count,
        round4 ((c.reuse_count : ℚ) / max 1 (c.case_count : ℚ))⟩] }

/-- `RAG_pipeline.py` line 86: `counters["case_count"] += 1`. -/
def bumpCase (c : Counters) : Counters := { c with case_count := c.case_count + 1 }

/-- `RAG_pipeline.py` line 94: `counters["reuse_count"] += 1`. -/
def bumpReuse (c : Counters) : Counters := { c with reuse_count := c.reuse_count + 1 }

/-- The possible effects of one invocation of `main()` on the persisted
counter file: an interrupted run writes nothing; a reuse hit saves once
after `case_count += 1; reuse_count += 1` (line 109); a locally-sufficient
case saves at line 144 and again at line 225 (two snapshots); every other
completed path saves once at line 225.  A crash between the two saves of the
double-save path leaves the same file as the single-save case. -/
inductive RunWrite : Option Counters → Option Counters → Prop
  | interrupted (f : Option Counters) : RunWrite f f
  | reused (f : Option Counters) (ts : String) :
      RunWrite f (some (save_counters ts (bumpReuse (bumpCase (load_counters f)))))
  | savedOnce (f : Option Counters) (ts : String) :
      RunWrite f (some (save_counters ts (bumpCase (load_counters f))))
  | savedTwice (f : Option Counters) (ts1 ts2 : String) :
      RunWrite f
        (some (save_counters ts2 (save_counters ts1 (bumpCase (load_counters f)))))

/-- Helper: a single run write preserves `reuse_count ≤ case_count`, never
decreases `reuse_count`, and only appends to `history`. -/
lemma runWrite_step {f f' : Option Counters} (h : RunWrite f f') :
    ((load_counters f).reuse_count ≤ (load_counters f).case_count →
      (load_counters f').reuse_count ≤ (load_counters f').case_count) ∧
    (load_counters f).reuse_count ≤ (load_counters f').reuse_count ∧
    ∃ t, (load_counters f').history = (load_counters f).history ++ t := by
  cases h with
  | interrupted => exact ⟨id, le_refl _, [], by simp⟩
  | reused ts =>
    refine ⟨fun hle => ?_, ?_, ?_⟩
    · simp only [load_counters, Option.getD_some, save_counters, bumpReuse, bumpCase] at hle ⊢
      omega
    · simp only [load_counters, Option.getD_some, save_counters, bumpReuse, bumpCase]
      omega
    · exact ⟨_, rfl⟩
  | savedOnce ts =>
    refine ⟨fun hle => ?_, ?_, ?_⟩
    · simp only [load_counters, Option.getD_some, save_counters, bumpCase] at hle ⊢
      omega
    · simp only [load_counters, Option.getD_some, save_counters, bumpCase]
      exact le_refl _
    · exact ⟨_, rfl⟩
  | savedTwice ts1 ts2 =>
    refine ⟨fun hle => ?_, ?_, ?_⟩
    · simp only [load_counters, Option.getD_some, save_counters, bumpCase] at hle ⊢
      omega
    · simp only [load_counters, Option.getD_some, save_counters, bumpCase]
      exact le_refl _
    · simp only [load_counters, Option.getD_some, save_counters, bumpCase,
        List.append_assoc]
      exact ⟨_, rfl⟩

/-- C8: across any sequence of runs, including interrupted and resumed runs,
the persisted counter record keeps `reuse_count ≤ case_count`, its
`reuse_count` never decreases, and its `history` only grows by appended
snapshots. -/
theorem counters_monotone (f f' : Option Counters)
    (h : Relation.ReflTransGen RunWrite f f')
    (hinv : (load_counters f).reuse_count ≤ (load_counters f).case_count) :
    ((load_counters f').reuse_count ≤ (load_counters f').case_count) ∧
    (load_counters f).reuse_count ≤ (load_counters f').reuse_count ∧
    ∃ t, (load_counters f').history = (load_counters f).history ++ t := by
  induction h with
  | refl => exact ⟨hinv, le_refl _, [], by simp⟩
  | tail hchain hstep ih =>
    obtain ⟨h1, h2, t, ht⟩ := ih
    obtain ⟨g1, g2, t2, ht2⟩ := runWrite_step hstep
    exact ⟨g1 h1, le_trans h2 g2, t ++ t2, by rw [ht2, ht, List.append_assoc]⟩

/-- C8 witness: starting from a missing counter file (which satisfies the
invariant) and one completed reuse run. -/
theorem counters_monotone_witness :
    (load_counters none).reuse_count ≤ (load_counters none).case_count ∧
    (((load_counters (some (save_counters "t" (bumpReuse (bumpCase
          (load_counters none)))))).reuse_count ≤
        (load_counters (some (save_counters "t" (bumpReuse (bumpCase
          (load_counters none)))))).case_count) ∧
      (load_counters none).reuse_count ≤
        (load_counters (some (save_counters "t" (bumpReuse (bumpCase
          (load_counters none)))))).reuse_count ∧
      ∃ t, (load_counters (some (save_counters "t" (bumpReuse (bumpCase
          (load_counters none)))))).history = (load_counters none).history ++ t) :=
  ⟨le_refl _,
    counters_monotone none _
      (Relation.ReflTransGen.single (RunWrite.reused none "t")) (le_refl _)⟩

/- ============ RAG_pipeline.py: progress record (C9) ============ -/

/-- `RAG_pipeline.py` lines 21-26, `load_progress`: the persisted
`{last_index}` value, `-1` when the file does not exist. -/
def load_progress (file : Option ℤ) : ℤ := file.getD (-1)

/-- `RAG_pipeline.py` lines 29-32, `save_progress`: overwrite the progress
file with `{last_index: idx}`. -/
def save_progress (idx : ℤ) : Option ℤ := some idx

/-- `RAG_pipeline.py` lines 69-80: the case index a run claims —
`next_index = load_progress() + 1`, persisted via `save_progress(next_index)`
before any processing happens. -/
def next_index (file : Option ℤ) : ℤ := load_progress file + 1

/-- C9 counterexample: the claim says that after a run claims case `0`
(persisting `last_index = 0`) and dies before a terminal state, the next run
re-attempts case `0`; but the next run claims
`next_index (save_progress 0) = 1 ≠ 0`. -/
theorem progress_not_reattempted :
    next_index (save_progress 0) = 1 ∧ ¬ next_index (save_progress 0) = 0 := by
  constructor <;> simp [next_index, load_progress, save_progress]

/-- C9 amended: if a run claims case index `i` (persisting
`last_index = i`) and terminates before reaching a terminal state, the next
run does not re-attempt case `i`: it claims case `i + 1`, so the
interrupted case is skipped (each case index is claimed at most once, and
every claim advances the record by exactly one). -/
theorem progress_skips_interrupted (i : ℤ) (f : Option ℤ) :
    next_index (save_progress i) = i + 1 ∧
    next_index (save_progress (next_index f)) = next_index f + 1 := by
  constructor <;> simp [next_index, load_progress, save_progress]

/- ============ Agent/react_agent.py: react_reasoning (C10) ============ -/

/-- `Agent/react_agent.py` lines 13-20: the `AgentDecision` dataclass. -/
structure AgentDecision where
  action : String
  result : Option String
  rationale : Option String
  combined_context : Option String
  raw_results_count : ℕ

/-- Whether `needle` occurs at the start of `hay` (character lists). -/
def startsWithChars : List Char → List Char → Bool
  | [], _ => true
  | _ :: _, [] => false
  | a :: as, b :: bs => a == b && startsWithChars as bs

/-- Python substring containment `needle in hay` over character lists. -/
def hasSub (needle : List Char) : List Char → Bool
  | [] => needle.isEmpty
  | c :: rest => startsWithChars needle (c :: rest) || hasSub needle rest

/-- The part of `s` after the first occurrence of `sep` (used only when
`sep` occurs in `s`). -/
def afterFirst (sep : List Char) : List Char → List Char
  | [] => []
  | c :: rest =>
    if startsWithChars sep (c :: rest) then (c :: rest).drop sep.length
    else afterFirst sep rest

/-- Python `s.split(sep, 1)[-1]`: the part after the first occurrence of
`sep`, or all of `s` when `sep` does not occur. -/
def pySplit1Last (sep s : List Char) : List Char :=
  if hasSub sep s then afterFirst sep s else s

/-- `Agent/react_agent.py` lines 24-88, `react_reasoning`.  The reasoning
LLM's raw `response` and the decision `search_decision` that
`online_search_agent` would return are oracle parameters; the source scans
the lowercased response for the literal keywords and, on `"search"`,
resolves the search internally, returning `"generate"` or `"store"`. -/
def react_reasoning (user_feedback : String) (collected : List String)
    (response : String) (search_decision : AgentDecision) : AgentDecision :=
  let lower_resp := response.toLower
  if hasSub "search".toList lower_resp.toList then
    if search_decision.action = "generate" then
      ⟨"generate", search_decision.combined_context,
        some (response ++ "\n(Used online search summary)"),
        search_decision.combined_context, search_decision.raw_results_count⟩
    else
      ⟨"store", none, some (response ++ "\n(Online search insufficient)"),
        search_decision.combined_context, search_decision.raw_results_count⟩
  else if hasSub "generate".toList lower_resp.toList then
    let final :=
      if hasSub "final answer:".toList lower_resp.toList then
        pyStrip (String.mk (pySplit1Last "Final Answer:".toList response.toList))
      else pyStrip response
    ⟨"generate", some final, some response, none, 0⟩
  else
    ⟨"none", none, some response, none, 0⟩

/-- `RAG_pipeline.py` lines 157-222 (Step 5): which branch the orchestrator
takes on the returned decision's action. -/
def step5Branch (d : AgentDecision) : String :=
  if d.action = "search" then "online-search"
  else if d.action = "generate" then "direct-generate"
  else if d.action = "store" then "store"
  else "no-op"

/-- C10: for every input and every oracle response, `react_reasoning`
returns a decision whose action is `"generate"`, `"store"` or `"none"` —
never `"search"` — so the orchestrator's `action == "search"` branch is
unreachable. -/
theorem react_reasoning_never_search (fb : String) (collected : List String)
    (response : String) (sd : AgentDecision) :
    ((react_reasoning fb collected response sd).action = "generate" ∨
      (react_reasoning fb collected response sd).action = "store" ∨
      (react_reasoning fb collected response sd).action = "none") ∧
    (react_reasoning fb collected response sd).action ≠ "search" ∧
    step5Branch (react_reasoning fb collected response sd) ≠ "online-search" := by
  rw [react_reasoning]
  split_ifs <;> simp [step5Branch]

/-- C1 witness: the theorem applied at the concrete peak similarities
`(1, 0)` (for the sum and monotonicity parts, whose equal-weight clauses are
read at `s1 = 1`). -/
theorem adaptive_weights_normalised_monotone_witness :
    (adaptive_weights 1 0 0.5 0.5 BETA_BASE).1 +
        (adaptive_weights 1 0 0.5 0.5 BETA_BASE).2.1 = 1 ∧
    ((adaptive_weights 1 0 0.5 0.5 BETA_BASE).2.1 ≤
        (adaptive_weights 1 0 0.5 0.5 BETA_BASE).1 ↔ (0:ℝ) ≤ 1) ∧
    (adaptive_weights 1 1 0.5 0.5 BETA_BASE).1 = 0.5 ∧
    (adaptive_weights 1 1 0.5 0.5 BETA_BASE).2.1 = 0.5 ∧
    (adaptive_weights 1 1 0.5 0.5 BETA_BASE).2.2 = 0 :=
  adaptive_weights_normalised_monotone 1 0

/-- C10 witness: the theorem applied to a concrete response that contains
the word `"search"` and a concrete online-search decision. -/
theorem react_reasoning_never_search_witness :
    ((react_reasoning "fb" [] "let us search the web"
        (AgentDecision.mk "store" none none none 0)).action = "generate" ∨
      (react_reasoning "fb" [] "let us search the web"
        (AgentDecision.mk "store" none none none 0)).action = "store" ∨
      (react_reasoning "fb" [] "let us search the web"
        (AgentDecision.mk "store" none none none 0)).action = "none") ∧
    (react_reasoning "fb" [] "let us search the web"
        (AgentDecision.mk "store" none none none 0)).action ≠ "search" ∧
    step5Branch (react_reasoning "fb" [] "let us search the web"
        (AgentDecision.mk "store" none none none 0)) ≠ "online-search" :=
  react_reasoning_never_search "fb" [] "let us search the web"
    (AgentDecision.mk "store" none none none 0)
